import Mathlib

/-!
Shallow embedding of the geography-resolution logic of the repository
(`codecarbon/external/geography.py`).

Python strings are modelled as `List Char` (`Str`), Python `None`-able values
as `Option`, and Python truthiness of strings (non-empty) and floats
(non-zero) explicitly.  Network calls (`requests.get`, Nominatim reverse
geocoding) are modelled as oracle inputs: `none` / `RevRes.err` stands for a
call that raised an exception that the source catches at that call site.
Coordinates are modelled as rationals (no float arithmetic occurs in the
source; coordinates are only stored, tested for truthiness and passed on).
-/

namespace Codecarbon

abbrev Str := List Char

/-- Python `str.lower()` (ASCII case mapping, identity on CJK characters,
matching the characters that actually occur in this program). -/
def lowerStr (s : Str) : Str := s.map Char.toLower

/-- Python `str.upper()`. -/
def upperStr (s : Str) : Str := s.map Char.toUpper

/-- Python truthiness of an optional string: `None` and `""` are falsy. -/
def struthy : Option Str → Bool
  | none => false
  | some s => !s.isEmpty

/-- Python truthiness of an optional number: `None` and `0` are falsy. -/
def qtruthy : Option ℚ → Bool
  | none => false
  | some q => q != 0

/-- Python `a or b` on optional strings: `a` when truthy, else `b`. -/
def pyOrS (a b : Option Str) : Option Str := if struthy a then a else b

/-- Python `a or b` on optional numbers: `a` when truthy, else `b`. -/
def pyOrQ (a b : Option ℚ) : Option ℚ := if qtruthy a then a else b

/-- Python `x or ""`: the wrapped string when truthy, else the empty string. -/
def strOrEmptyStr (o : Option Str) : Str := if struthy o then o.getD [] else []

/-- Python `p == s[i:i+len(p)]` for some split: `isPre p s` holds when `p`
is a prefix of `s` (decidable, by direct recursion). -/
def isPre : Str → Str → Bool
  | [], _ => true
  | _ :: _, [] => false
  | a :: as, b :: bs => a == b && isPre as bs

/-- Python `p in s` membership test on strings (substring containment). -/
def subStr : Str → Str → Bool
  | p, [] => p.isEmpty
  | p, c :: rest => isPre p (c :: rest) || subStr p rest

/-- Region-to-grid-area table `GRID_AREA_MAPPING` of the source, in the
source's insertion order (Python dicts preserve insertion order). -/
def GRID_AREA_MAPPING : List (Str × Str) :=
  [("beijing".toList, "华北".toList), ("tianjin".toList, "华北".toList),
   ("hebei".toList, "华北".toList), ("shanxi".toList, "华北".toList),
   ("shandong".toList, "华北".toList), ("neimenggu".toList, "华北".toList),
   ("liaoning".toList, "东北".toList), ("jilin".toList, "东北".toList),
   ("heilongjiang".toList, "东北".toList), ("shanghai".toList, "华东".toList),
   ("jiangsu".toList, "华东".toList), ("zhejiang".toList, "华东".toList),
   ("anhui".toList, "华东".toList), ("fujian".toList, "华东".toList),
   ("henan".toList, "华中".toList), ("hubei".toList, "华中".toList),
   ("hunan".toList, "华中".toList), ("jiangxi".toList, "华中".toList),
   ("shaanxi".toList, "西北".toList), ("gansu".toList, "西北".toList),
   ("qinghai".toList, "西北".toList), ("ningxia".toList, "西北".toList),
   ("xinjiang".toList, "西北".toList), ("guangdong".toList, "南方".toList),
   ("guangxi".toList, "南方".toList), ("yunnan".toList, "南方".toList),
   ("guizhou".toList, "南方".toList), ("hainan".toList, "南方".toList),
   ("sichuan".toList, "西南".toList), ("chongqing".toList, "西南".toList)]

/-- Sentinel `"未知"` returned by `get_grid_area` when no grid area matches. -/
def unknownZone : Str := "未知".toList

/-- State of a `GeoMetadata` object (the `_geolocator` handle carries no
data and is modelled as an oracle at the call sites instead). -/
structure GeoMetadata where
  country_iso_code : Option Str
  country_name : Option Str
  region : Option Str
  latitude : Option ℚ
  longitude : Option ℚ
  country_2letter_iso_code : Option Str
  deriving DecidableEq, Repr

/-- Constructor `GeoMetadata.__init__`: ISO codes are upper-cased and the
region lower-cased when truthy, otherwise set to `None`. -/
def GeoMetadata.init (cic cn r : Option Str) (lat lon : Option ℚ)
    (c2 : Option Str) : GeoMetadata :=
  { country_iso_code := if struthy cic then cic.map upperStr else none,
    country_name := cn,
    region := if struthy r then r.map lowerStr else none,
    latitude := lat,
    longitude := lon,
    country_2letter_iso_code := if struthy c2 then c2.map upperStr else none }

/-- Fields of the JSON object returned by an IP-geolocation endpoint, as
read by `get_grid_area` (geojs names and ip-api names). Absent keys are
`none`; a response object carrying none of these keys is still possible. -/
structure IpDict where
  latitude : Option ℚ
  lat : Option ℚ
  longitude : Option ℚ
  lon : Option ℚ
  country : Option Str
  country_code3 : Option Str
  countryCode : Option Str
  region : Option Str
  regionName : Option Str
  deriving DecidableEq, Repr

/-- Outcome of one Nominatim reverse-geocoding call.  `err` is a call that
raised (network error, or `.lower()` applied to a non-string state value);
`ok co st` is a completed call where `co` is `address.get("country")` and
`st` models `address` at key `"state"`: `none` when the key is absent (so
`addr.get("state", "")` yields `""`), `some none` when the key is present
with value `None` (so `.lower()` on it raises), `some (some s)` a string. -/
inductive RevRes where
  | err : RevRes
  | ok : Option Str → Option (Option Str) → RevRes
  deriving DecidableEq, Repr

/-- Test `self.country_name and "china" in self.country_name.lower()`. -/
def isChina (cn : Option Str) : Bool :=
  match cn with
  | none => false
  | some s => !s.isEmpty && subStr ("china".toList) (lowerStr s)

/-- The `for province, grid_area in GRID_AREA_MAPPING.items()` loop body:
first table entry whose key occurs as a substring of the region wins. -/
def matchLoop : List (Str × Str) → Str → Option Str
  | [], _ => none
  | (p, ga) :: rest, r => if subStr p r then some ga else matchLoop rest r

/-- Result of the province loop followed by `return "未知"`. -/
def matchResult (r : Str) : Str :=
  (matchLoop GRID_AREA_MAPPING r).getD unknownZone

/-- Merge step of `get_grid_area` (source lines 127-135): field updates
applied to `self` from a truthy response object `data`. -/
def mergeIpData (g : GeoMetadata) (d : IpDict) : GeoMetadata :=
  { g with
    latitude := pyOrQ d.latitude d.lat,
    longitude := pyOrQ d.longitude d.lon,
    country_name := d.country,
    country_iso_code := pyOrS d.country_code3 (pyOrS d.countryCode g.country_iso_code),
    region := some (lowerStr (strOrEmptyStr (pyOrS d.region (pyOrS d.regionName g.region)))) }

/-- Nominatim supplement inside the China branch (source lines 140-146):
the whole reverse lookup and assignment sit in a local `try`, so any raise
leaves the region unchanged. -/
def applyRev1 (g : GeoMetadata) (r : RevRes) : GeoMetadata :=
  match r with
  | RevRes.err => g
  | RevRes.ok _ st =>
    match st with
    | none => { g with region := some [] }
    | some none => g
    | some (some s) => { g with region := some (lowerStr s) }

/-- Conditional application of the China-branch Nominatim supplement:
only fires when the region is falsy and both coordinates are truthy. -/
def stepChina (g : GeoMetadata) (r : RevRes) : GeoMetadata :=
  if !struthy g.region && qtruthy g.latitude && qtruthy g.longitude then
    applyRev1 g r
  else g

/-- Fallback block of `get_grid_area` (source lines 154-169): one guarded
Nominatim reverse lookup, fill-missing updates of country and region, a
second China test and province loop; every raise inside the block is
caught by the enclosing `except` and yields `"未知"`. -/
def geoFallback (g : GeoMetadata) (r : RevRes) : Str :=
  if qtruthy g.latitude && qtruthy g.longitude then
    match r with
    | RevRes.err => unknownZone
    | RevRes.ok co st =>
      let cn := pyOrS g.country_name co
      match (if struthy g.region then some (g.region.getD [])
             else match st with
                  | none => some ([] : Str)
                  | some none => none
                  | some (some s) => some (lowerStr s)) with
      | none => unknownZone
      | some reg =>
        if isChina cn then (matchLoop GRID_AREA_MAPPING reg).getD unknownZone
        else unknownZone
  else unknownZone

/-- Body of `_query_ip_location`: the first endpoint that does not raise
wins and its parsed body is returned; both failing yields `None`. -/
def query_ip_location (r1 r2 : Option IpDict) : Option IpDict :=
  match r1 with
  | some d => some d
  | none => r2

/-- Main entry point `get_grid_area`.  `data` is the `_query_ip_location`
result (with a falsy parsed body folded into `none`, which the source
treats identically via `if data:`); `rev1` and `rev2` are the outcomes the
two Nominatim call sites would observe. -/
def get_grid_area (g0 : GeoMetadata) (data : Option IpDict)
    (rev1 rev2 : RevRes) : Str :=
  match data with
  | some d =>
    let g := mergeIpData g0 d
    if isChina g.country_name then
      matchResult (strOrEmptyStr (stepChina g rev1).region)
    else geoFallback g rev2
  | none => geoFallback g0 rev2

/-- Successful primary (geojs) branch of `from_geo_js`: both coordinate
strings converted by `float(...)` without raising; other fields as fetched. -/
structure GeoJsOk where
  country_code3 : Option Str
  country : Option Str
  region : Option Str
  latitude : ℚ
  longitude : ℚ
  country_code : Option Str
  deriving DecidableEq, Repr

/-- Successful secondary (ip-api plus iso3 lookup) branch of `from_geo_js`:
`res["country"]` present, the iso3 query succeeded and produced a first
key, both coordinates converted without raising. -/
structure IpApiOk where
  country : Str
  iso3_code : Str
  regionName : Option Str
  lat : ℚ
  lon : ℚ
  countryCode : Option Str
  deriving DecidableEq, Repr

/-- Classmethod `from_geo_js`: primary endpoint, then ip-api with an iso3
lookup, then the hard-coded Canada default.  `none` for a branch means any
exception inside that branch's `try` (network failure, missing field,
failed `float(...)` conversion). -/
def from_geo_js (r1 : Option GeoJsOk) (r2 : Option IpApiOk) : GeoMetadata :=
  match r1 with
  | some v =>
    GeoMetadata.init v.country_code3 v.country v.region
      (some v.latitude) (some v.longitude) v.country_code
  | none =>
    match r2 with
    | some w =>
      GeoMetadata.init (some w.iso3_code) (some w.country) w.regionName
        (some w.lat) (some w.lon) w.countryCode
    | none =>
      GeoMetadata.init (some ("CAN".toList)) (some ("Canada".toList))
        (some ("Quebec".toList)) (some (46.8 : ℚ)) (some ((-71.2) : ℚ))
        (some ("CA".toList))

/-- Character class `[a-z]` of the GCP region pattern. -/
def isAZ (c : Char) : Bool := 'a' ≤ c && c ≤ 'z'

/-- Character class `[0-9]` of the GCP region pattern. -/
def isDig (c : Char) : Bool := '0' ≤ c && c ≤ '9'

/-- Attempt to match the pattern `[a-z]+-[a-z]+[0-9]` at the start of `s`.
Maximal munch is faithful to the Python regex here: backtracking a greedy
`[a-z]+` can never help, because `-` and `[0-9]` match no `[a-z]`
character. -/
def matchPat (s : Str) : Option Str :=
  match s.takeWhile isAZ, s.dropWhile isAZ with
  | a :: as, '-' :: r2 =>
    match r2.takeWhile isAZ, r2.dropWhile isAZ with
    | b :: bs, c :: _ =>
      if isDig c then some ((a :: as) ++ '-' :: ((b :: bs) ++ [c])) else none
    | _, _ => none
  | _, _ => none

/-- Semantics of `re.search(r"[a-z]+-[a-z]+[0-9]", zone)`: the match at the
leftmost position admitting one, `none` when no position matches. -/
def reSearch : Str → Option Str
  | [] => none
  | c :: cs =>
    match matchPat (c :: cs) with
    | some m => some m
    | none => reSearch cs

/-- Helper `extract_gcp_region` of `from_utils`: `.group(0)` of the regex
search; `none` models the `AttributeError` raised on a failed search. -/
def extract_gcp_region (zone : Str) : Option Str := reSearch zone

/-- Record returned by `CloudMetadata`. -/
structure CloudMetadata where
  provider : Option Str
  region : Option Str
  deriving DecidableEq, Repr

/-- Property `is_on_private_infra`: both fields are `None`. -/
def CloudMetadata.is_on_private_infra (cm : CloudMetadata) : Bool :=
  cm.provider.isNone && cm.region.isNone

/-- Azure nested metadata object `metadata["compute"]`. -/
structure AzureCompute where
  location : Option Str
  deriving DecidableEq, Repr

/-- Fields of the `metadata` mapping read by the per-provider extractors.
`compute = none` models the `"compute"` key being absent (its access is a
bare `[...]` lookup, so absence raises `KeyError`). -/
structure CloudMeta where
  region : Option Str
  compute : Option AzureCompute
  zone : Option Str
  deriving DecidableEq, Repr

/-- Result of `get_env_cloud_details()` when not `None`: the `provider`
string and the `metadata` mapping, with `metadata = none` modelling the
empty mapping `{}`. -/
structure CloudDetails where
  provider : Str
  metadata : Option CloudMeta
  deriving DecidableEq, Repr

/-- Uncaught exceptions that `CloudMetadata.from_utils` can raise:
`noExtractor` is the `TypeError` from calling the `None` result of
`extract_region_for_provider.get(provider)`; `azureComputeMissing` the
`KeyError` on `metadata["compute"]`; `gcpZoneMissing` the `TypeError` from
`re.search` on a `None` zone; `gcpNoMatch` the `AttributeError` from
`.group(0)` on a failed search. -/
inductive CloudErr where
  | noExtractor : CloudErr
  | azureComputeMissing : CloudErr
  | gcpZoneMissing : CloudErr
  | gcpNoMatch : CloudErr
  deriving DecidableEq, Repr

/-- Classmethod `CloudMetadata.from_utils`: empty metadata yields the
all-absent record; aws and azure are reset to all-absent after their
region extraction; gcp keeps provider and the extracted region; any other
provider hits the unguarded extractor lookup. -/
def from_utils (env : Option CloudDetails) : Except CloudErr CloudMetadata :=
  match env with
  | none => Except.ok ⟨none, none⟩
  | some cd =>
    match cd.metadata with
    | none => Except.ok ⟨none, none⟩
    | some md =>
      if lowerStr cd.provider = "aws".toList then Except.ok ⟨none, none⟩
      else if lowerStr cd.provider = "azure".toList then
        match md.compute with
        | none => Except.error CloudErr.azureComputeMissing
        | some _ => Except.ok ⟨none, none⟩
      else if lowerStr cd.provider = "gcp".toList then
        match md.zone with
        | none => Except.error CloudErr.gcpZoneMissing
        | some z =>
          match extract_gcp_region z with
          | none => Except.error CloudErr.gcpNoMatch
          | some r => Except.ok ⟨some (lowerStr cd.provider), some r⟩
      else Except.error CloudErr.noExtractor

/-! Helper lemmas shared by the claim theorems. -/

theorem isPre_mem {p s : Str} (h : isPre p s = true) : ∀ c ∈ p, c ∈ s := by
  induction p generalizing s with
  | nil => intro c hc; cases hc
  | cons a as ih =>
    cases s with
    | nil => simp [isPre] at h
    | cons b bs =>
      simp only [isPre, Bool.and_eq_true, beq_iff_eq] at h
      intro c hc
      rcases List.mem_cons.mp hc with rfl | hc
      · rw [h.1]; exact List.mem_cons_self _ _
      · exact List.mem_cons_of_mem _ (ih h.2 c hc)

theorem subStr_mem {p r : Str} (h : subStr p r = true) : ∀ c ∈ p, c ∈ r := by
  induction r with
  | nil =>
    cases p with
    | nil => intro c hc; cases hc
    | cons a as => simp [subStr, List.isEmpty] at h
  | cons b bs ih =>
    simp only [subStr, Bool.or_eq_true] at h
    rcases h with h | h
    · exact isPre_mem h
    · exact fun c hc => List.mem_cons_of_mem _ (ih h c hc)

theorem matchLoop_mem {tbl : List (Str × Str)} {r v : Str}
    (h : matchLoop tbl r = some v) : v ∈ tbl.map Prod.snd := by
  induction tbl with
  | nil => cases h
  | cons kv rest ih =>
    rcases kv with ⟨p, ga⟩
    simp only [matchLoop] at h
    split at h
    · injection h with h'
      rw [← h']
      exact List.mem_cons_self _ _
    · exact List.mem_cons_of_mem _ (ih h)

theorem matchLoop_blank {tbl : List (Str × Str)} {r : Str}
    (hr : ∀ c ∈ r, c = ' ')
    (htbl : ∀ kv ∈ tbl, ∃ c ∈ kv.1, c ≠ ' ') :
    matchLoop tbl r = none := by
  induction tbl with
  | nil => rfl
  | cons kv rest ih =>
    rcases kv with ⟨p, ga⟩
    obtain ⟨c, hcp, hcs⟩ := htbl (p, ga) (List.mem_cons_self _ _)
    have hsub : ¬ subStr p r = true := fun hx => hcs (hr c (subStr_mem hx c hcp))
    simp only [matchLoop, if_neg hsub]
    exact ih (fun kv hkv => htbl kv (List.mem_cons_of_mem _ hkv))

theorem matchResult_blank {r : Str} (hr : ∀ c ∈ r, c = ' ') :
    matchResult r = unknownZone := by
  unfold matchResult
  rw [matchLoop_blank hr (by decide)]
  rfl

/-- Closed set of strings that `get_grid_area` can return: the seven grid
area labels occurring as values of `GRID_AREA_MAPPING` and `"未知"`. -/
def zoneLabels : List Str :=
  ["华北".toList, "东北".toList, "华东".toList, "华中".toList,
   "西北".toList, "南方".toList, "西南".toList, unknownZone]

theorem matchResult_mem (r : Str) : matchResult r ∈ zoneLabels := by
  unfold matchResult
  cases h : matchLoop GRID_AREA_MAPPING r with
  | none => exact (by decide : unknownZone ∈ zoneLabels)
  | some v =>
    have hv := matchLoop_mem h
    have hsub : ∀ x ∈ GRID_AREA_MAPPING.map Prod.snd, x ∈ zoneLabels := by decide
    exact hsub v hv

theorem geoFallback_mem (g : GeoMetadata) (r : RevRes) :
    geoFallback g r ∈ zoneLabels := by
  have hu : unknownZone ∈ zoneLabels := by decide
  unfold geoFallback
  split
  · match r with
    | RevRes.err => exact hu
    | RevRes.ok co st =>
      dsimp only
      split
      · exact hu
      · split
        · have := matchResult_mem (by assumption)
          unfold matchResult at this
          exact this
        · exact hu
  · exact hu

theorem isPre_self_append (x r : Str) : isPre x (x ++ r) = true := by
  induction x with
  | nil => rfl
  | cons a as ih => simp [isPre, ih]

theorem isPre_append_left {y z : Str} (x : Str) (h : isPre y z = true) :
    isPre (x ++ y) (x ++ z) = true := by
  induction x with
  | nil => exact h
  | cons a as ih => simp [isPre, ih]

theorem matchPat_spec {s m : Str} (h : matchPat s = some m) :
    (∃ a b c, m = a ++ '-' :: (b ++ [c]) ∧ a ≠ [] ∧ b ≠ []
      ∧ (∀ x ∈ a, isAZ x = true) ∧ (∀ x ∈ b, isAZ x = true) ∧ isDig c = true)
    ∧ isPre m s = true := by
  unfold matchPat at h
  split at h
  case h_2 => exact absurd h (by simp)
  case h_1 a as r2 hta hda =>
    split at h
    case h_2 => exact absurd h (by simp)
    case h_1 b bs c rest htb hdb =>
      split at h
      case isFalse => exact absurd h (by simp)
      case isTrue hdig =>
        injection h with h'
        subst h'
        constructor
        · refine ⟨a :: as, b :: bs, c, rfl, List.cons_ne_nil a as,
            List.cons_ne_nil b bs, ?_, ?_, hdig⟩
          · intro x hx
            rw [← hta] at hx
            exact List.mem_takeWhile_imp hx
          · intro x hx
            rw [← htb] at hx
            exact List.mem_takeWhile_imp hx
        · have hs : s = (a :: as) ++ ('-' :: r2) := by
            rw [← hta, ← hda, List.takeWhile_append_dropWhile]
          have hr2 : r2 = (b :: bs) ++ (c :: rest) := by
            rw [← htb, ← hdb, List.takeWhile_append_dropWhile]
          rw [hs]
          apply isPre_append_left
          simp only [isPre, beq_self_eq_true, Bool.true_and]
          rw [hr2]
          have hsplit : (b :: bs) ++ (c :: rest) = ((b :: bs) ++ [c]) ++ rest := by
            simp
          rw [hsplit]
          exact isPre_self_append _ _

theorem reSearch_first {s m : Str} (h : reSearch s = some m) :
    ∃ i, i ≤ s.length ∧ matchPat (s.drop i) = some m
      ∧ ∀ j, j < i → matchPat (s.drop j) = none := by
  induction s with
  | nil => cases h
  | cons x xs ih =>
    unfold reSearch at h
    cases hm : matchPat (x :: xs) with
    | some m' =>
      rw [hm] at h
      injection h with h'
      subst h'
      exact ⟨0, Nat.zero_le _, hm, fun j hj => absurd hj (Nat.not_lt_zero j)⟩
    | none =>
      rw [hm] at h
      obtain ⟨i, hle, hmi, hnone⟩ := ih h
      refine ⟨i + 1, Nat.succ_le_succ hle, by simpa using hmi, ?_⟩
      intro j hj
      cases j with
      | zero => exact hm
      | succ j' => simpa using hnone j' (Nat.lt_of_succ_lt_succ hj)

theorem lower_region_choice {r r' : Str} (P : Option Str)
    (h : lowerStr r = lowerStr r') :
    lowerStr (strOrEmptyStr (pyOrS (some r) P))
      = lowerStr (strOrEmptyStr (pyOrS (some r') P)) := by
  cases r with
  | nil =>
    cases r' with
    | nil => rfl
    | cons b bs => simp [lowerStr] at h
  | cons a as =>
    cases r' with
    | nil => simp [lowerStr] at h
    | cons b bs =>
      simpa [pyOrS, struthy, strOrEmptyStr, List.isEmpty] using h

/-- Condition under which `from_utils` discards all cloud data: no details
at all, an empty metadata mapping, or a provider (lowercased) in the set
that publishes no carbon-intensity factor. -/
def noUsableFactor (env : Option CloudDetails) : Bool :=
  match env with
  | none => true
  | some cd =>
    match cd.metadata with
    | none => true
    | some _ =>
      lowerStr cd.provider == "aws".toList || lowerStr cd.provider == "azure".toList

theorem private_infra_iff (cm : CloudMetadata) :
    cm.is_on_private_infra = true ↔ (cm.provider = none ∧ cm.region = none) := by
  rcases cm with ⟨a, b⟩
  simp [CloudMetadata.is_on_private_infra, Option.isNone_iff_eq_none]

/-! Claim theorems. -/

/-- C1 (counterexample): the merge step of `get_grid_area` is not
fill-missing.  With a record populated by the constructor (country
France, latitude 48) and a response naming country Chile and carrying no
coordinates, the populated `country_name` is overwritten by the response
and the populated `latitude` is overwritten by the absent one. -/
theorem merge_fill_missing_counterexample :
    (mergeIpData
        (GeoMetadata.init (some ("FRA".toList)) (some ("France".toList))
          (some ("Bretagne".toList)) (some (48 : ℚ)) (some ((-2) : ℚ))
          (some ("FR".toList)))
        ⟨none, none, none, none, some ("Chile".toList), none, none, none, none⟩).country_name
      = some ("Chile".toList)
    ∧ (GeoMetadata.init (some ("FRA".toList)) (some ("France".toList))
        (some ("Bretagne".toList)) (some (48 : ℚ)) (some ((-2) : ℚ))
        (some ("FR".toList))).country_name = some ("France".toList)
    ∧ (mergeIpData
        (GeoMetadata.init (some ("FRA".toList)) (some ("France".toList))
          (some ("Bretagne".toList)) (some (48 : ℚ)) (some ((-2) : ℚ))
          (some ("FR".toList)))
        ⟨none, none, none, none, some ("Chile".toList), none, none, none, none⟩).latitude
      = none
    ∧ (GeoMetadata.init (some ("FRA".toList)) (some ("France".toList))
        (some ("Bretagne".toList)) (some (48 : ℚ)) (some ((-2) : ℚ))
        (some ("FR".toList))).latitude = some (48 : ℚ) :=
  ⟨rfl, rfl, rfl, rfl⟩

/-- C1 (amended): the merge step of `get_grid_area` is response-priority,
not fill-missing.  `country_name`, `latitude` and `longitude` are
determined by the response alone (independent of the previously populated
state); `country_iso_code` and `region` keep the previously populated
value only when the response supplies no truthy value for them (the kept
region being lowercased). -/
theorem merge_response_priority : ∀ (g g' : GeoMetadata) (d : IpDict),
    ((mergeIpData g d).country_name = (mergeIpData g' d).country_name
      ∧ (mergeIpData g d).latitude = (mergeIpData g' d).latitude
      ∧ (mergeIpData g d).longitude = (mergeIpData g' d).longitude)
    ∧ (struthy d.country_code3 = false → struthy d.countryCode = false →
        (mergeIpData g d).country_iso_code = g.country_iso_code)
    ∧ (struthy d.region = false → struthy d.regionName = false →
        struthy g.region = true →
        (mergeIpData g d).region = g.region.map lowerStr) := by
  intro g g' d
  refine ⟨⟨rfl, rfl, rfl⟩, ?_, ?_⟩
  · intro h1 h2
    simp [mergeIpData, pyOrS, h1, h2]
  · intro h1 h2 h3
    cases hg : g.region with
    | none => rw [hg] at h3; simp [struthy] at h3
    | some s =>
      rw [hg] at h3
      simp [mergeIpData, pyOrS, strOrEmptyStr, h1, h2, hg, h3]

/-- C1 (witness): concrete instance of the preservation clauses of
`merge_response_priority`, with a populated iso code and region and a
response supplying neither. -/
theorem merge_response_priority_witness :
    (mergeIpData
        (GeoMetadata.init (some ("FRA".toList)) none (some ("anhui".toList))
          none none none)
        ⟨none, none, none, none, some ("X".toList), none, none, none, none⟩).country_iso_code
      = (GeoMetadata.init (some ("FRA".toList)) none (some ("anhui".toList))
          none none none).country_iso_code
    ∧ (mergeIpData
        (GeoMetadata.init (some ("FRA".toList)) none (some ("anhui".toList))
          none none none)
        ⟨none, none, none, none, some ("X".toList), none, none, none, none⟩).region
      = (GeoMetadata.init (some ("FRA".toList)) none (some ("anhui".toList))
          none none none).region.map lowerStr :=
  ⟨(merge_response_priority
      (GeoMetadata.init (some ("FRA".toList)) none (some ("anhui".toList))
        none none none)
      (GeoMetadata.init (some ("FRA".toList)) none (some ("anhui".toList))
        none none none)
      ⟨none, none, none, none, some ("X".toList), none, none, none, none⟩).2.1
      rfl rfl,
   (merge_response_priority
      (GeoMetadata.init (some ("FRA".toList)) none (some ("anhui".toList))
        none none none)
      (GeoMetadata.init (some ("FRA".toList)) none (some ("anhui".toList))
        none none none)
      ⟨none, none, none, none, some ("X".toList), none, none, none, none⟩).2.2
      rfl rfl rfl⟩

/-- C2: `get_grid_area` is modelled as a total function (every exception
a provider can raise is caught in the source and appears here as an
oracle outcome), so it returns a string for every combination of
responses; and when both IP endpoints and the reverse geocoder are down
it returns the unknown-zone sentinel `"未知"`. -/
theorem grid_area_total_and_down_unknown :
    (∀ (g : GeoMetadata) (data : Option IpDict) (rev1 rev2 : RevRes),
      ∃ s : Str, get_grid_area g data rev1 rev2 = s)
    ∧ (∀ (g : GeoMetadata) (rev1 : RevRes),
      get_grid_area g (query_ip_location none none) rev1 RevRes.err = unknownZone) := by
  constructor
  · exact fun g data rev1 rev2 => ⟨_, rfl⟩
  · intro g rev1
    show geoFallback g RevRes.err = unknownZone
    unfold geoFallback
    split
    · rfl
    · rfl

/-- C3 (counterexample): for a response naming a non-China country, the
code does not return a distinct "non-applicable country" sentinel: it
falls through to the coordinate fallback and returns the same `"未知"`
value that stands for an unknown zone. -/
theorem non_china_sentinel_counterexample :
    get_grid_area (GeoMetadata.init none none none none none none)
      (some ⟨none, none, none, none, some ("France".toList), none, none,
             some ("Guangdong".toList), none⟩)
      RevRes.err RevRes.err = unknownZone := by decide

/-- C3 (amended): when the merged country name is absent or does not
contain the marker `"china"`, `get_grid_area` reaches the coordinate
fallback rather than the province table, and returns the shared `"未知"`
sentinel provided the fallback reverse lookup does not itself supply a
country containing the marker (no distinct non-applicable sentinel
exists in the code). -/
theorem non_china_returns_unknown : ∀ (g0 : GeoMetadata) (d : IpDict)
    (rev1 rev2 : RevRes),
    isChina (mergeIpData g0 d).country_name = false →
    (∀ co st, rev2 = RevRes.ok co st →
      isChina (pyOrS (mergeIpData g0 d).country_name co) = false) →
    get_grid_area g0 (some d) rev1 rev2 = unknownZone := by
  intro g0 d rev1 rev2 h1 h2
  show (if isChina (mergeIpData g0 d).country_name then
          matchResult (strOrEmptyStr (stepChina (mergeIpData g0 d) rev1).region)
        else geoFallback (mergeIpData g0 d) rev2) = unknownZone
  rw [if_neg (by simp [h1])]
  unfold geoFallback
  split
  · cases rev2 with
    | err => rfl
    | ok co st =>
      have hc := h2 co st rfl
      dsimp only
      split
      · rfl
      · rw [if_neg (by simp [hc])]
  · rfl

/-- C3 (witness): concrete non-China record with the reverse geocoder
down resolves to `"未知"` through `non_china_returns_unknown`. -/
theorem non_china_returns_unknown_witness :
    get_grid_area (GeoMetadata.init none none none none none none)
      (some ⟨none, none, none, none, some ("Brazil".toList), none, none,
             none, none⟩)
      RevRes.err RevRes.err = unknownZone :=
  non_china_returns_unknown _ _ _ _ (by decide)
    (fun co st h => nomatch h)

/-- C4 (counterexample): the record returned by `from_geo_js` after both
endpoints fail does not carry region `"Quebec"`: the constructor stores
the region lowercased. -/
theorem from_geo_js_region_counterexample :
    (from_geo_js none none).region ≠ some ("Quebec".toList) := by decide

/-- C4 (amended): when the primary geojs call and the ip-api fallback
both fail, `from_geo_js` deterministically returns the hard-coded default
record: iso3 `"CAN"`, country `"Canada"`, region `"quebec"` (the
hard-coded argument `"Quebec"` lowercased by the constructor), latitude
46.8, longitude -71.2, two-letter code `"CA"` — and never raises. -/
theorem from_geo_js_double_failure_default :
    from_geo_js none none =
      { country_iso_code := some ("CAN".toList),
        country_name := some ("Canada".toList),
        region := some ("quebec".toList),
        latitude := some ((46.8 : ℚ)),
        longitude := some ((-71.2 : ℚ)),
        country_2letter_iso_code := some ("CA".toList) } := rfl

/-- C6: for a merged record whose country contains the China marker and
whose region is empty or whitespace-only after the (possibly absent)
reverse-geocoding supplement, `get_grid_area` returns `"未知"`: a blank
region matches no entry of the province table. -/
theorem china_blank_region_unknown : ∀ (g0 : GeoMetadata) (d : IpDict)
    (rev1 rev2 : RevRes),
    isChina (mergeIpData g0 d).country_name = true →
    (∀ c ∈ strOrEmptyStr (stepChina (mergeIpData g0 d) rev1).region, c = ' ') →
    get_grid_area g0 (some d) rev1 rev2 = unknownZone := by
  intro g0 d rev1 rev2 hch hblank
  show (if isChina (mergeIpData g0 d).country_name then
          matchResult (strOrEmptyStr (stepChina (mergeIpData g0 d) rev1).region)
        else geoFallback (mergeIpData g0 d) rev2) = unknownZone
  rw [if_pos hch]
  exact matchResult_blank hblank

/-- C6 (witness): a China record whose response region is whitespace-only
resolves to `"未知"` through `china_blank_region_unknown`. -/
theorem china_blank_region_unknown_witness :
    get_grid_area (GeoMetadata.init none none none none none none)
      (some ⟨none, none, none, none, some ("China".toList), none, none,
             some ("  ".toList), none⟩)
      RevRes.err RevRes.err = unknownZone :=
  china_blank_region_unknown _ _ _ _ (by decide) (by decide)

/-- C9: for every prior state and every combination of provider
responses, `get_grid_area` returns one of the seven grid-area labels
occurring as values of `GRID_AREA_MAPPING` or the sentinel `"未知"`. -/
theorem grid_area_closed_range : ∀ (g : GeoMetadata) (data : Option IpDict)
    (rev1 rev2 : RevRes),
    get_grid_area g data rev1 rev2 ∈ zoneLabels := by
  intro g data rev1 rev2
  match data with
  | none => exact geoFallback_mem g rev2
  | some d =>
    show (if isChina (mergeIpData g d).country_name then
            matchResult (strOrEmptyStr (stepChina (mergeIpData g d) rev1).region)
          else geoFallback (mergeIpData g d) rev2) ∈ zoneLabels
    split
    · exact matchResult_mem _
    · exact geoFallback_mem _ _

/-- C5: zone matching is invariant under the casing of the response's
region (the pipeline lowercases before matching), appending the
recognized suffix `" province"` to any table key leaves its zone
unchanged, and concretely the regions `"Guangdong Province"`,
`"guangdong"` and `"GUANGDONG"` of a China record all resolve to the
same zone `"南方"`. -/
theorem zone_matching_invariance :
    (∀ (g0 : GeoMetadata) (d : IpDict) (rev1 rev2 : RevRes) (r r' : Str),
      lowerStr r = lowerStr r' →
      get_grid_area g0 (some { d with region := some r }) rev1 rev2
        = get_grid_area g0 (some { d with region := some r' }) rev1 rev2)
    ∧ (∀ kv ∈ GRID_AREA_MAPPING,
      matchResult (kv.1 ++ (" province".toList)) = matchResult kv.1)
    ∧ get_grid_area (GeoMetadata.init none none none none none none)
        (some ⟨none, none, none, none, some ("China".toList), none, none,
               some ("Guangdong Province".toList), none⟩)
        RevRes.err RevRes.err = "南方".toList
    ∧ get_grid_area (GeoMetadata.init none none none none none none)
        (some ⟨none, none, none, none, some ("China".toList), none, none,
               some ("guangdong".toList), none⟩)
        RevRes.err RevRes.err = "南方".toList
    ∧ get_grid_area (GeoMetadata.init none none none none none none)
        (some ⟨none, none, none, none, some ("China".toList), none, none,
               some ("GUANGDONG".toList), none⟩)
        RevRes.err RevRes.err = "南方".toList := by
  refine ⟨?_, by decide, by decide, by decide, by decide⟩
  intro g0 d rev1 rev2 r r' h
  have hm : mergeIpData g0 { d with region := some r }
          = mergeIpData g0 { d with region := some r' } := by
    unfold mergeIpData
    dsimp only
    rw [lower_region_choice (pyOrS d.regionName g0.region) h]
  show (if isChina (mergeIpData g0 { d with region := some r }).country_name then
          matchResult (strOrEmptyStr
            (stepChina (mergeIpData g0 { d with region := some r }) rev1).region)
        else geoFallback (mergeIpData g0 { d with region := some r }) rev2)
      = get_grid_area g0 (some { d with region := some r' }) rev1 rev2
  rw [hm]
  rfl

/-- C5 (witness): concrete instance of the casing-invariance clause of
`zone_matching_invariance` at the regions `"GUANGDONG"` and
`"guangdong"`. -/
theorem zone_matching_invariance_witness :
    get_grid_area (GeoMetadata.init none none none none none none)
      (some { (⟨none, none, none, none, some ("China".toList), none, none,
               none, none⟩ : IpDict) with region := some ("GUANGDONG".toList) })
      RevRes.err RevRes.err
    = get_grid_area (GeoMetadata.init none none none none none none)
      (some { (⟨none, none, none, none, some ("China".toList), none, none,
               none, none⟩ : IpDict) with region := some ("guangdong".toList) })
      RevRes.err RevRes.err :=
  zone_matching_invariance.1 _ _ _ _ ("GUANGDONG".toList) ("guangdong".toList)
    (by decide)

/-- C7: every record that `from_utils` actually returns has
`is_on_private_infra` exactly when no usable provider metadata was found
(details absent, metadata empty, or a provider in the no-published-factor
set aws/azure); and `is_on_private_infra` itself holds iff both fields
are absent. -/
theorem from_utils_private_infra_iff : ∀ (env : Option CloudDetails)
    (cm : CloudMetadata),
    from_utils env = Except.ok cm →
    (cm.is_on_private_infra = true ↔ noUsableFactor env = true)
    ∧ (cm.is_on_private_infra = true ↔ (cm.provider = none ∧ cm.region = none)) := by
  intro env cm h
  refine ⟨?_, private_infra_iff cm⟩
  match env with
  | none =>
    simp only [from_utils] at h
    injection h with h'
    subst h'
    exact ⟨fun _ => rfl, fun _ => rfl⟩
  | some ⟨prov, none⟩ =>
    simp only [from_utils] at h
    injection h with h'
    subst h'
    exact ⟨fun _ => rfl, fun _ => rfl⟩
  | some ⟨prov, some m⟩ =>
    simp only [from_utils] at h
    split at h
    case isTrue haws =>
      injection h with h'
      subst h'
      constructor
      · intro _
        simp [noUsableFactor, haws]
      · intro _
        rfl
    case isFalse haws =>
      split at h
      case isTrue hazure =>
        split at h
        · exact absurd h (by simp)
        · injection h with h'
          subst h'
          constructor
          · intro _
            simp [noUsableFactor, hazure]
          · intro _
            rfl
      case isFalse hazure =>
        split at h
        case isTrue hgcp =>
          split at h
          · exact absurd h (by simp)
          · split at h
            · exact absurd h (by simp)
            · injection h with h'
              subst h'
              constructor
              · intro hfalse
                exact absurd hfalse (by simp [CloudMetadata.is_on_private_infra])
              · intro hfalse
                simp only [noUsableFactor, Bool.or_eq_true, beq_iff_eq] at hfalse
                rcases hfalse with hf | hf
                · exact absurd hf haws
                · exact absurd hf hazure
        case isFalse hgcp =>
          exact absurd h (by simp)

/-- C7 (witness): an aws environment with non-empty metadata yields a
record reporting private infrastructure, through
`from_utils_private_infra_iff`. -/
theorem from_utils_private_infra_iff_witness :
    (CloudMetadata.mk none none).is_on_private_infra = true :=
  (from_utils_private_infra_iff
      (some ⟨"aws".toList, some ⟨none, none, none⟩⟩) ⟨none, none⟩ rfl).1.mpr
    (by decide)

/-- C8: a successful `extract_gcp_region` search returns the leftmost
substring of the zone matching the pattern (one or more lowercase
letters, a hyphen, one or more lowercase letters, a digit): the result
has that shape, occurs as a prefix of the zone's suffix at some position
admitting a match while no earlier position admits one; and a zone with
no match makes `from_utils` on a gcp environment fail with the
(uncaught) pattern error rather than return a record. -/
theorem gcp_region_first_match_or_error :
    (∀ (z m : Str), extract_gcp_region z = some m →
      ((∃ a b c, m = a ++ '-' :: (b ++ [c]) ∧ a ≠ [] ∧ b ≠ []
          ∧ (∀ x ∈ a, isAZ x = true) ∧ (∀ x ∈ b, isAZ x = true)
          ∧ isDig c = true)
        ∧ ∃ i, i ≤ z.length ∧ isPre m (z.drop i) = true
            ∧ matchPat (z.drop i) = some m
            ∧ ∀ j, j < i → matchPat (z.drop j) = none))
    ∧ (∀ (cd : CloudDetails) (md : CloudMeta) (z : Str),
        cd.metadata = some md → md.zone = some z →
        lowerStr cd.provider = "gcp".toList → extract_gcp_region z = none →
        from_utils (some cd) = Except.error CloudErr.gcpNoMatch) := by
  constructor
  · intro z m h
    obtain ⟨i, hle, hmi, hnone⟩ := reSearch_first h
    exact ⟨(matchPat_spec hmi).1, i, hle, (matchPat_spec hmi).2, hmi, hnone⟩
  · intro cd md z hmd hz hgcp hext
    rcases cd with ⟨prov, mdf⟩
    cases hmd
    simp only [from_utils]
    rw [if_neg (by rw [hgcp]; decide), if_neg (by rw [hgcp]; decide),
      if_pos hgcp, hz]
    dsimp only
    rw [hext]

/-- C8 (witness): the gcp zone string of the source's docstring yields
the match `"us-central1"` with the properties of
`gcp_region_first_match_or_error`, and an unmatchable zone `"ab1"` makes
`from_utils` fail with the pattern error. -/
theorem gcp_region_first_match_or_error_witness :
    (∃ i, i ≤ ("projects/705208488469/zones/us-central1-a".toList).length
      ∧ isPre ("us-central1".toList)
          (("projects/705208488469/zones/us-central1-a".toList).drop i) = true
      ∧ matchPat (("projects/705208488469/zones/us-central1-a".toList).drop i)
          = some ("us-central1".toList)
      ∧ ∀ j, j < i →
          matchPat (("projects/705208488469/zones/us-central1-a".toList).drop j)
            = none)
    ∧ from_utils (some ⟨"gcp".toList, some ⟨none, none, some ("ab1".toList)⟩⟩)
        = Except.error CloudErr.gcpNoMatch :=
  ⟨(gcp_region_first_match_or_error.1
      ("projects/705208488469/zones/us-central1-a".toList)
      ("us-central1".toList) (by decide)).2,
   gcp_region_first_match_or_error.2
      ⟨"gcp".toList, some ⟨none, none, some ("ab1".toList)⟩⟩
      ⟨none, none, some ("ab1".toList)⟩ ("ab1".toList) rfl rfl (by decide)
      (by decide)⟩

/-- C10: with non-empty metadata, `from_utils` reaches the unguarded
extractor-lookup failure (a `TypeError` in the source) exactly for
providers whose lowercased name is outside the set aws/azure/gcp: for
such a provider it fails with `noExtractor`, and for any provider in the
set that failure branch is unreachable. -/
theorem from_utils_provider_precondition : ∀ (cd : CloudDetails)
    (md : CloudMeta), cd.metadata = some md →
    ((lowerStr cd.provider = "aws".toList ∨ lowerStr cd.provider = "azure".toList
        ∨ lowerStr cd.provider = "gcp".toList) →
      from_utils (some cd) ≠ Except.error CloudErr.noExtractor)
    ∧ (lowerStr cd.provider ≠ "aws".toList → lowerStr cd.provider ≠ "azure".toList →
        lowerStr cd.provider ≠ "gcp".toList →
        from_utils (some cd) = Except.error CloudErr.noExtractor) := by
  intro cd md hmd
  rcases cd with ⟨prov, mdf⟩
  cases hmd
  constructor
  · intro hp
    simp only [from_utils]
    rcases hp with h | h | h
    · rw [if_pos h]
      simp
    · rw [if_neg (by rw [h]; decide), if_pos h]
      split <;> simp
    · rw [if_neg (by rw [h]; decide), if_neg (by rw [h]; decide), if_pos h]
      split
      · simp
      · split <;> simp
  · intro h1 h2 h3
    simp only [from_utils]
    rw [if_neg h1, if_neg h2, if_neg h3]

/-- C10 (witness): a provider outside the set (alibaba) with non-empty
metadata hits the unguarded lookup, through
`from_utils_provider_precondition`; a provider in the set (gcp) cannot. -/
theorem from_utils_provider_precondition_witness :
    from_utils (some ⟨"alibaba".toList, some ⟨none, none, none⟩⟩)
        = Except.error CloudErr.noExtractor
    ∧ from_utils (some ⟨"gcp".toList, some ⟨none, none, none⟩⟩)
        ≠ Except.error CloudErr.noExtractor :=
  ⟨(from_utils_provider_precondition
      ⟨"alibaba".toList, some ⟨none, none, none⟩⟩ ⟨none, none, none⟩ rfl).2
      (by decide) (by decide) (by decide),
   (from_utils_provider_precondition
      ⟨"gcp".toList, some ⟨none, none, none⟩⟩ ⟨none, none, none⟩ rfl).1
      (Or.inr (Or.inr (by decide)))⟩

end Codecarbon
